import Mathlib

/-!
# ProxyFactory: the bridge between scripting objects and managed objects

A shallow embedding of `android/runtime/v8/src/native/ProxyFactory.cpp`.

The C++ code works on three pieces of mutable state: the static map `factories`,
the scripting heap (objects, function templates, persistent handles) and the
managed heap (the `long` field of a managed proxy).  They are gathered in `World`
and every function takes a world and returns the next one.  What the collaborators
answer (`JNIUtil`, `KrollBindings`, the managed creator method, the script origin
of a function) is gathered in `Externals`.  Calls that leave the file are recorded
in `World.trace`, in program order, so that statements such as "the binding table
is never queried" are statements about the trace.
-/

namespace ProxyFactory

/-! ## Data model -/

/-- A managed class reference, the key of the registry. -/
abbrev jclass := Nat

/-- A managed object reference; `none` is the C++ `NULL`. -/
abbrev jobject := Option Nat

/-- A managed method identity. -/
abbrev jmethodID := Nat

/-- The scripting values the file distinguishes.  `external p` is what
`External::New(p)` builds, the only kind for which `IsExternal()` holds;
`function t` is the function of the template at address `t`. -/
inductive Value where
  | undefined
  | number (n : Int)
  | string (s : String)
  | external (p : jobject)
  | object (id : Nat)
  | function (t : Nat)
  deriving DecidableEq, Repr

/-- The `IsExternal()` test of a value. -/
def Value.IsExternal : Value → Bool
  | .external _ => true
  | _ => false

/-- The `External::Unwrap` decoding of a value already known to be external. -/
def Value.Unwrap : Value → jobject
  | .external p => p
  | _ => none

/-- The invocation target of a function template. -/
inductive InvocationCallback where
  | proxyConstructor
  | foreign (id : Nat)
  deriving DecidableEq, Repr

/-- A function template of the scripting engine: invocation target, the data bound
to it (`External::Wrap(javaClass)`), the internal field count of its instances,
the class name and the template it inherits from. -/
structure FunctionTemplate where
  callback : InvocationCallback
  data : jclass
  internalFieldCount : Nat
  className : String
  parent : Option Nat
  deriving DecidableEq, Repr

/-- Modelled from the spec: the class `JavaObject` of `JavaObject.h`, which is not
part of the sources at hand.  It is the native wrapper value "holding the (durable
or freshly transient) managed reference"; the reference it was built from is kept
as it is, `NULL` included. -/
structure JavaObject where
  javaObject_ : jobject
  deriving DecidableEq, Repr

/-- A scripting object: the template whose function built it, the number of
internal fields of its layout and the wrapper stored by `Wrap`, if any. -/
structure V8Object where
  creator : Nat
  internalFieldCount : Nat
  wrapper : Option JavaObject
  deriving DecidableEq, Repr

/-- The struct `ProxyInfo`: a template address and the managed creator method. -/
structure ProxyInfo where
  v8ProxyTemplate : Nat
  javaProxyCreator : jmethodID
  deriving DecidableEq, Repr

/-- The type `std::map<jclass, ProxyInfo>`, as the list of its entries. -/
abbrev ProxyFactoryMap := List (jclass × ProxyInfo)

/-- What leaves the file, in program order.  `enterCreateJavaProxy` marks an entry
into `createJavaProxy`, so that its invocations can be counted. -/
inductive Event where
  | loge (tag : String) (msg : String)
  | logClassName (format : String) (c : jclass)
  | getBinding (className : String)
  | newInstance (creator : Nat) (argv : List Value)
  | enterCreateJavaProxy (c : jclass) (v8Proxy : Nat) (argv : List Value)
  | callStaticObjectMethod (method : jmethodID) (c : jclass) (javaArgs : List Value)
      (pv8Proxy : Nat) (sourceUrl : String)
  | deleteLocalRefArgs (javaArgs : List Value)
  | deleteLocalRef (ref : jobject)
  deriving DecidableEq, Repr

/-- The state the file reads and writes.
* `env`: whether `JNIScope::getEnv()` answers a usable environment;
* `factories`: the static registry;
* `templates`: the function templates, a template address is an index;
* `objects`: the scripting objects, an object identity is an index;
* `persistents`: the cells made by `Persistent<Object>::New`, a durable handle is
  an index and the cell holds the object it keeps alive;
* `longField`: the writes to `managedV8ReferencePtrField`, latest first;
* `trace`: the calls that left the file. -/
structure World where
  env : Bool
  factories : ProxyFactoryMap
  templates : List FunctionTemplate
  objects : List V8Object
  persistents : List Nat
  longField : List (Nat × Nat)
  trace : List Event
  deriving DecidableEq, Repr

/-- The answers of the collaborators.
* `getClassName c`: `JNIUtil::getClassName` followed by `javaStringToJsString`;
* `getBinding n`: the exports of `KrollBindings::getBinding`, as the list of the
  property names with their values, `none` for the empty handle;
* `krollProxyCreateMethod`: the value of `JNIUtil::krollProxyCreateMethod`;
* `callStaticObjectMethod`: what the managed creator method returns;
* `resourceNameUtf8 f`: the `String::Utf8Value` of the resource name of the script
  origin of the function of template `f`, all its `length()` bytes. -/
structure Externals where
  getClassName : jclass → String
  getBinding : String → Option (List (String × Value))
  krollProxyCreateMethod : jmethodID
  callStaticObjectMethod : jmethodID → jclass → List Value → Nat → String → jobject
  resourceNameUtf8 : Nat → String

/-- The `Arguments` of an invocation callback: `Holder()`, the decoded `Data()`,
the argument values and `Callee()`. -/
structure Arguments where
  holder : Nat
  data : jclass
  argv : List Value
  callee : Nat
  deriving DecidableEq, Repr

/-- Ways of leaving the defined behaviour of the engine or of the managed runtime. -/
inductive Fault where
  | emptyCreator
  | notAFunction
  | danglingTemplate
  | nullObjectField
  deriving DecidableEq, Repr

/-- Modelled from the spec: the constant `ProxyFactory::kInternalFieldCount` of
`ProxyFactory.h`, which is not part of the sources at hand: "a constant number of
internal slots (exactly enough to hold one wrapper reference)". -/
def kInternalFieldCount : Nat := 1

/-- The log tag of the file. -/
def TAG : String := "ProxyFactory"

/-! ## The registry -/

/-- The lookup `factories.find(k)`, `none` for `factories.end()`. -/
def mapFind : ProxyFactoryMap → jclass → Option ProxyInfo
  | [], _ => none
  | (k1, v1) :: rest, k => if k1 = k then some v1 else mapFind rest k

/-- The assignment `factories[k] = v`: the entry of `k` is overwritten when there
is one and inserted otherwise. -/
def mapAssign : ProxyFactoryMap → jclass → ProxyInfo → ProxyFactoryMap
  | [], k, v => [(k, v)]
  | (k1, v1) :: rest, k, v =>
    if k1 = k then (k, v) :: rest else (k1, v1) :: mapAssign rest k v

/-- The number of entries of the registry under the key `k`. -/
def mapCount (m : ProxyFactoryMap) (k : jclass) : Nat :=
  (m.filter (fun e => decide (e.1 = k))).length

/-- The invariant of `std::map`: no key occurs twice. -/
def UniqueKeys (m : ProxyFactoryMap) : Prop :=
  (m.map Prod.fst).Nodup

instance decidableUniqueKeys (m : ProxyFactoryMap) : Decidable (UniqueKeys m) :=
  inferInstanceAs (Decidable ((m.map Prod.fst).Nodup))

/-- The lookup of the macro `GET_PROXY_INFO`. -/
def GET_PROXY_INFO (w : World) (c : jclass) : Option ProxyInfo :=
  mapFind w.factories c

/-- Appends calls to the trace. -/
def World.emit (w : World) (es : List Event) : World :=
  { w with trace := w.trace ++ es }

/-- The macro `LOG_JNIENV_ERROR`. -/
def LOG_JNIENV_ERROR (w : World) (msgMore : String) : World :=
  w.emit [Event.loge TAG ("Unable to find class " ++ msgMore)]

/-- The function `ProxyFactory::registerProxyPair`. -/
def registerProxyPair (x : Externals) (w : World) (javaProxyClass : jclass)
    (v8ProxyTemplate : Nat) : World :=
  if w.env = false then
    LOG_JNIENV_ERROR w "while registering proxy pair."
  else
    let info : ProxyInfo :=
      { v8ProxyTemplate := v8ProxyTemplate, javaProxyCreator := x.krollProxyCreateMethod }
    { w with factories := mapAssign w.factories javaProxyClass info }

/-! ## The two factories and the constructor dispatcher -/

/-- The C string that starts at the first byte of a `String::Utf8Value` buffer: the
characters before the first NUL.  U+0000 is the only character whose UTF-8 encoding
holds a zero byte, so the cut falls between characters. -/
def cString (s : String) : String :=
  String.mk (s.data.takeWhile (fun ch => decide (ch ≠ Char.ofNat 0)))

/-- The call `env->NewStringUTF(url)`: the managed string is read from the C string at
`url`, and is identified with it. -/
def NewStringUTF (url : String) : String :=
  cString url

/-- The function `ProxyFactory::createJavaProxy`.  The durable handle is the index
of the new cell of `persistents`; `jsArgumentsToJavaArray` is taken as the identity
on the argument values; `url` is the buffer the pointer `url` points into. -/
def createJavaProxy (x : Externals) (w : World) (javaClass : jclass) (v8Proxy : Nat)
    (args : Arguments) : World × jobject :=
  let w := w.emit [Event.enterCreateJavaProxy javaClass v8Proxy args.argv]
  match GET_PROXY_INFO w javaClass with
  | none =>
    (w.emit [Event.logClassName "ProxyFactory: failed to find class for %s" javaClass,
             Event.loge TAG "No proxy info found for class."], none)
  | some info =>
    if w.env = false then
      (LOG_JNIENV_ERROR w "while creating Java proxy.", none)
    else
      let pv8Proxy := w.persistents.length
      let w := { w with persistents := w.persistents ++ [v8Proxy] }
      let sourceUrlValue := x.resourceNameUtf8 args.callee
      let url := if sourceUrlValue.utf8ByteSize > 0 then sourceUrlValue else "app://app.js"
      let javaSourceUrl := NewStringUTF url
      let javaArgs := args.argv
      let javaProxy :=
        x.callStaticObjectMethod info.javaProxyCreator javaClass javaArgs pv8Proxy
          javaSourceUrl
      let w := w.emit [Event.callStaticObjectMethod info.javaProxyCreator javaClass javaArgs
        pv8Proxy javaSourceUrl, Event.deleteLocalRefArgs javaArgs]
      (w, javaProxy)

/-- The function `ProxyFactory::unwrapJavaProxy`. -/
def unwrapJavaProxy (args : Arguments) : jobject :=
  if args.argv.length ≠ 1 then
    none
  else
    let firstArgument := args.argv.getD 0 Value.undefined
    if firstArgument.IsExternal then firstArgument.Unwrap else none

/-- Modelled from the spec: the method `Wrap` that `JavaObject` inherits, which is
not part of the sources at hand: the wrapper is "attached to the scripting object's
internal slot". -/
def Wrap (w : World) (native : JavaObject) (handle : Nat) : World :=
  match w.objects[handle]? with
  | none => w
  | some o => { w with objects := w.objects.set handle { o with wrapper := some native } }

/-- The function `ProxyFactory::proxyConstructor`; the value returned is the
identity of the object returned. -/
def proxyConstructor (x : Externals) (w : World) (args : Arguments) : World × Nat :=
  let v8Proxy := args.holder
  let javaClass := args.data
  let javaProxy := unwrapJavaProxy args
  let r : World × jobject × Bool :=
    if javaProxy = none then
      let c := createJavaProxy x w javaClass v8Proxy args
      (c.1, c.2, true)
    else
      (w, javaProxy, false)
  let w := r.1
  let javaProxy := r.2.1
  let deleteRef := r.2.2
  let v8ProxyNative : JavaObject := { javaObject_ := javaProxy }
  let w := Wrap w v8ProxyNative v8Proxy
  let w :=
    if deleteRef then
      if w.env then w.emit [Event.deleteLocalRef javaProxy] else w
    else w
  (w, v8Proxy)

/-- The engine call `creator->NewInstance(argc, argv)` for the function of the
template at address `creator`: a fresh object with the instance layout of the
template is the receiver of the invocation target of the template.  A target that
is not defined in this file leaves the world as it is. -/
def NewInstance (x : Externals) (w : World) (creator : Nat) (argv : List Value) :
    World × Except Fault Nat :=
  let w := w.emit [Event.newInstance creator argv]
  match w.templates[creator]? with
  | none => (w, .error Fault.danglingTemplate)
  | some t =>
    let v8Proxy := w.objects.length
    let fresh : V8Object :=
      { creator := creator, internalFieldCount := t.internalFieldCount, wrapper := none }
    let w := { w with objects := w.objects ++ [fresh] }
    match t.callback with
    | .proxyConstructor =>
      let r := proxyConstructor x w
        { holder := v8Proxy, data := t.data, argv := argv, callee := creator }
      (r.1, .ok r.2)
    | .foreign _ => (w, .ok v8Proxy)

/-- Lines 79 to 86 of `ProxyFactory::createV8Proxy`: the instantiation of the
resolved `creator` handle (`none` is the empty handle) and the link back. -/
def instantiateAndLink (x : Externals) (w : World) (creator : Option Value)
    (javaProxy : jobject) : World × Except Fault (Option Nat) :=
  let external := Value.external javaProxy
  match creator with
  | none => (w, .error Fault.emptyCreator)
  | some (.function t) =>
    match NewInstance x w t [external] with
    | (w, .error f) => (w, .error f)
    | (w, .ok v8Proxy) =>
      let ptr := w.persistents.length
      let w := { w with persistents := w.persistents ++ [v8Proxy] }
      match javaProxy with
      | none => (w, .error Fault.nullObjectField)
      | some obj => ({ w with longField := (obj, ptr) :: w.longField }, .ok (some v8Proxy))
  | some _ => (w, .error Fault.notAFunction)

/-- The function `ProxyFactory::createV8Proxy`; `.ok none` is the empty handle. -/
def createV8Proxy (x : Externals) (w : World) (javaClass : jclass) (javaProxy : jobject) :
    World × Except Fault (Option Nat) :=
  if w.env = false then
    (LOG_JNIENV_ERROR w "while creating Java proxy.", .ok none)
  else
    match GET_PROXY_INFO w javaClass with
    | none =>
      let className := x.getClassName javaClass
      let w := w.emit [Event.getBinding className]
      match x.getBinding className with
      | none =>
        let w := w.emit [Event.loge TAG ("Failed to find class for " ++ className)]
        (LOG_JNIENV_ERROR w "while creating V8 Proxy.", .ok none)
      | some exports =>
        let names := exports.map Prod.fst
        let creator : Option Value :=
          if names.length ≥ 1 then
            some ((exports.lookup (names.getD 0 "")).getD Value.undefined)
          else none
        instantiateAndLink x w creator javaProxy
    | some info =>
      instantiateAndLink x w (some (Value.function info.v8ProxyTemplate)) javaProxy

/-- The function `ProxyFactory::inheritProxyTemplate`; the value returned is the
address of the new template. -/
def inheritProxyTemplate (x : Externals) (w : World) (superTemplate : Nat)
    (javaClass : jclass) (className : String) : World × Nat :=
  let proxyTemplate : FunctionTemplate :=
    { callback := InvocationCallback.proxyConstructor, data := javaClass,
      internalFieldCount := 0, className := "", parent := none }
  let proxyTemplate := { proxyTemplate with internalFieldCount := kInternalFieldCount }
  let proxyTemplate := { proxyTemplate with className := className }
  let proxyTemplate := { proxyTemplate with parent := some superTemplate }
  let address := w.templates.length
  let w := { w with templates := w.templates ++ [proxyTemplate] }
  (registerProxyPair x w javaClass address, address)

/-! ## Observations on the trace -/

/-- The calls added to the trace of `w` on the way to `w2`. -/
def added (w w2 : World) : List Event :=
  w2.trace.drop w.trace.length

/-- Whether a call is a query of the fallback binding table. -/
def Event.isGetBinding : Event → Bool
  | .getBinding _ => true
  | _ => false

/-- Whether a call instantiates a constructor. -/
def Event.isNewInstance : Event → Bool
  | .newInstance _ _ => true
  | _ => false

/-- Whether a call is an entry into `createJavaProxy`. -/
def Event.isEnterCreateJavaProxy : Event → Bool
  | .enterCreateJavaProxy _ _ _ => true
  | _ => false

/-- The class registered through `inheritProxyTemplate`: its registered template is
alive, has the constructor dispatcher for invocation target and `c` for data. -/
def RegisteredByInherit (w : World) (c : jclass) : Prop :=
  ∃ info t, GET_PROXY_INFO w c = some info ∧ w.templates[info.v8ProxyTemplate]? = some t ∧
    t.callback = InvocationCallback.proxyConstructor ∧ t.data = c

/-! ## Concrete worlds -/

/-- Collaborators for the examples: class 7 is "ti.Button"; the binding table knows
"ti.Empty" with no export; the creator method fails on class 9 only; the function 1
comes from the script "app://ui/window.js", the resource names of the functions 2 and 3
hold a NUL character, and no other function has a script origin. -/
def demoExternals : Externals where
  getClassName := fun c => if c = 7 then "ti.Button" else if c = 8 then "ti.Empty" else "?"
  getBinding := fun n => if n = "ti.Empty" then some [] else none
  krollProxyCreateMethod := 42
  callStaticObjectMethod := fun _ c _ _ _ => if c = 9 then none else some (100 + c)
  resourceNameUtf8 := fun f =>
    if f = 1 then "app://ui/window.js"
    else if f = 2 then String.mk ['a', Char.ofNat 0, 'b']
    else if f = 3 then String.mk [Char.ofNat 0, 'a', 'b', 'c']
    else ""

/-- The world before anything is registered, the environment being available. -/
def emptyWorld : World where
  env := true
  factories := []
  templates := []
  objects := []
  persistents := []
  longField := []
  trace := []

/-- The empty world with the environment torn down. -/
def deadWorld : World :=
  { emptyWorld with env := false }

/-- The world in which class 7 was registered through `inheritProxyTemplate`. -/
def buttonWorld : World :=
  (inheritProxyTemplate demoExternals emptyWorld 0 7 "Button").1

/-- The world in which class 9 was registered through `inheritProxyTemplate`. -/
def failingWorld : World :=
  (inheritProxyTemplate demoExternals emptyWorld 0 9 "Broken").1

/-- A fresh instance of the template at address 0, before its constructor runs. -/
def freshInstance : V8Object where
  creator := 0
  internalFieldCount := kInternalFieldCount
  wrapper := none

/-- The world of class 7 in which the engine has allocated the receiver 0. -/
def buttonReceiverWorld : World :=
  { buttonWorld with objects := [freshInstance] }

/-- The world of class 9 in which the engine has allocated the receiver 0. -/
def failingReceiverWorld : World :=
  { failingWorld with objects := [freshInstance] }

/-- The invocation of the constructor of class 9 on the receiver 0 with no argument. -/
def newBroken : Arguments where
  holder := 0
  data := 9
  argv := []
  callee := 0

/-- The invocation, with no argument, of the constructor of class 7 on the receiver 0, the
callee being the function `callee`. -/
def newButtonFrom (callee : Nat) : Arguments where
  holder := 0
  data := 7
  argv := []
  callee := callee

/-- The invocation of the constructor of class 7 on the receiver 0 with one argument, an
external value that holds the null reference. -/
def newButtonNull : Arguments where
  holder := 0
  data := 7
  argv := [Value.external none]
  callee := 0

/-- The invocation of the constructor of class 7 on the receiver 0 with one argument, an
external value that holds the managed object 5. -/
def newButtonLinked : Arguments where
  holder := 0
  data := 7
  argv := [Value.external (some 5)]
  callee := 0

/-! ## The registry: lemmas -/

theorem mapFind_mapAssign_same (m : ProxyFactoryMap) (k : jclass) (v : ProxyInfo) :
    mapFind (mapAssign m k v) k = some v := by
  induction m with
  | nil => simp [mapAssign, mapFind]
  | cons e rest ih =>
    obtain ⟨k1, v1⟩ := e
    by_cases h : k1 = k
    · simp [mapAssign, mapFind, h]
    · simp [mapAssign, mapFind, h, ih]

theorem mapFind_mapAssign_other (m : ProxyFactoryMap) (k k2 : jclass) (v : ProxyInfo)
    (hne : k2 ≠ k) : mapFind (mapAssign m k v) k2 = mapFind m k2 := by
  induction m with
  | nil =>
    have h2 : ¬ k = k2 := fun h => hne h.symm
    simp [mapAssign, mapFind, h2]
  | cons e rest ih =>
    obtain ⟨k1, v1⟩ := e
    by_cases h : k1 = k
    · have h2 : ¬ k = k2 := fun h => hne h.symm
      have h3 : ¬ k1 = k2 := fun h4 => h2 (h ▸ h4)
      simp [mapAssign, mapFind, h, h2]
    · simp [mapAssign, mapFind, h, ih]

theorem mapCount_eq_zero (m : ProxyFactoryMap) (k : jclass) (h : k ∉ m.map Prod.fst) :
    mapCount m k = 0 := by
  induction m with
  | nil => simp [mapCount]
  | cons e rest ih =>
    obtain ⟨k1, v1⟩ := e
    simp only [List.map_cons, List.mem_cons, not_or] at h
    have h1 : ¬ k1 = k := fun h2 => h.1 h2.symm
    have := ih h.2
    simp only [mapCount] at this ⊢
    simp [List.filter_cons, h1, this]

theorem mapCount_mapAssign_same (m : ProxyFactoryMap) (k : jclass) (v : ProxyInfo)
    (hu : UniqueKeys m) : mapCount (mapAssign m k v) k = 1 := by
  induction m with
  | nil => simp [mapAssign, mapCount]
  | cons e rest ih =>
    obtain ⟨k1, v1⟩ := e
    simp only [UniqueKeys, List.map_cons, List.nodup_cons] at hu
    by_cases h : k1 = k
    · subst h
      have h0 := mapCount_eq_zero rest k1 hu.1
      simp only [mapCount] at h0 ⊢
      simp [mapAssign, List.filter_cons, h0]
    · have h1 := ih hu.2
      simp only [mapCount] at h1 ⊢
      simp [mapAssign, h, List.filter_cons, h1]

theorem keys_mapAssign (m : ProxyFactoryMap) (k : jclass) (v : ProxyInfo) :
    (mapAssign m k v).map Prod.fst =
      if k ∈ m.map Prod.fst then m.map Prod.fst else m.map Prod.fst ++ [k] := by
  induction m with
  | nil => simp [mapAssign]
  | cons e rest ih =>
    obtain ⟨k1, v1⟩ := e
    by_cases h : k1 = k
    · simp [mapAssign, h]
    · have h2 : ¬ k = k1 := fun h3 => h h3.symm
      simp only [mapAssign, h, if_false, List.map_cons, ih, List.mem_cons, h2, false_or]
      split <;> simp

theorem UniqueKeys_mapAssign (m : ProxyFactoryMap) (k : jclass) (v : ProxyInfo)
    (hu : UniqueKeys m) : UniqueKeys (mapAssign m k v) := by
  unfold UniqueKeys at hu ⊢
  rw [keys_mapAssign]
  split
  · exact hu
  · rename_i hk
    rw [List.nodup_append]
    refine ⟨hu, List.nodup_singleton k, ?_⟩
    intro a ha hb
    simp only [List.mem_singleton] at hb
    exact hk (hb ▸ ha)

/-! ## Registration -/

theorem registerProxyPair_dead (x : Externals) (w : World) (c : jclass) (t : Nat)
    (henv : w.env = false) :
    registerProxyPair x w c t = LOG_JNIENV_ERROR w "while registering proxy pair." := by
  simp [registerProxyPair, henv]

/-- C7, as the claim states it, fails: with the environment torn down,
`registerProxyPair` returns at its guard, and after two registrations of class 7 the
registry holds no entry for it at all. -/
theorem registerProxyPair_twice_dead_env :
    GET_PROXY_INFO
        (registerProxyPair demoExternals (registerProxyPair demoExternals deadWorld 7 1) 7 2) 7
      = none ∧
    mapCount
        (registerProxyPair demoExternals (registerProxyPair demoExternals deadWorld 7 1) 7 2).factories
        7 = 0 := by
  decide

/-- C7, amended: whenever the environment is available, two successive registrations
of a class `c`, with templates `t1` then `t2`, leave exactly one entry for `c` in a
registry whose keys were unique, and the lookup of `c` gives `t2` paired with the shared
creator method; whenever the environment is unavailable, both registrations leave the
registry as it was. -/
theorem registerProxyPair_twice (x : Externals) (w : World) (c : jclass) (t1 t2 : Nat)
    (hu : UniqueKeys w.factories) :
    (w.env = true →
      mapCount (registerProxyPair x (registerProxyPair x w c t1) c t2).factories c = 1 ∧
      GET_PROXY_INFO (registerProxyPair x (registerProxyPair x w c t1) c t2) c =
        some { v8ProxyTemplate := t2, javaProxyCreator := x.krollProxyCreateMethod } ∧
      UniqueKeys (registerProxyPair x (registerProxyPair x w c t1) c t2).factories) ∧
    (w.env = false →
      (registerProxyPair x (registerProxyPair x w c t1) c t2).factories = w.factories) := by
  constructor
  · intro henv
    have e : (registerProxyPair x (registerProxyPair x w c t1) c t2).factories =
        mapAssign (mapAssign w.factories c ⟨t1, x.krollProxyCreateMethod⟩) c
          ⟨t2, x.krollProxyCreateMethod⟩ := by
      simp [registerProxyPair, henv]
    simp only [GET_PROXY_INFO, e]
    have hu1 := UniqueKeys_mapAssign w.factories c
      { v8ProxyTemplate := t1, javaProxyCreator := x.krollProxyCreateMethod } hu
    exact ⟨mapCount_mapAssign_same _ c _ hu1, mapFind_mapAssign_same _ c _,
      UniqueKeys_mapAssign _ c _ hu1⟩
  · intro henv
    rw [registerProxyPair_dead x w c t1 henv]
    have h2 : (LOG_JNIENV_ERROR w "while registering proxy pair.").env = false := by
      simp [LOG_JNIENV_ERROR, World.emit, henv]
    rw [registerProxyPair_dead x _ c t2 h2]
    simp [LOG_JNIENV_ERROR, World.emit]

/-- C7, amended, at a concrete input: class 7 registered twice in the world that
already holds an entry for it. -/
theorem registerProxyPair_twice_witness :
    UniqueKeys buttonWorld.factories ∧
    ((buttonWorld.env = true →
      mapCount (registerProxyPair demoExternals
        (registerProxyPair demoExternals buttonWorld 7 1) 7 2).factories 7 = 1 ∧
      GET_PROXY_INFO (registerProxyPair demoExternals
        (registerProxyPair demoExternals buttonWorld 7 1) 7 2) 7 =
        some { v8ProxyTemplate := 2,
               javaProxyCreator := demoExternals.krollProxyCreateMethod } ∧
      UniqueKeys (registerProxyPair demoExternals
        (registerProxyPair demoExternals buttonWorld 7 1) 7 2).factories) ∧
    (buttonWorld.env = false →
      (registerProxyPair demoExternals
        (registerProxyPair demoExternals buttonWorld 7 1) 7 2).factories =
        buttonWorld.factories)) :=
  ⟨by decide, registerProxyPair_twice demoExternals buttonWorld 7 1 2 (by decide)⟩

/-- C9, as the claim states it, fails: with the environment torn down the derived
template is built but `registerProxyPair` returns at its guard, so the lookup of the
class finds nothing. -/
theorem inheritProxyTemplate_dead_env :
    GET_PROXY_INFO (inheritProxyTemplate demoExternals deadWorld 0 7 "Button").1 7 = none := by
  decide

/-- C9, amended: `inheritProxyTemplate p c n` returns the address of a new template whose
invocation target is the constructor dispatcher with `c` for bound data, whose instances
have `kInternalFieldCount` internal fields, whose class name is `n` and whose parent is
`p`; the templates that existed are untouched and the registry entry of every class other
than `c` is unchanged; whenever the environment is available the lookup of `c` afterwards
gives that new template paired with the shared creator method, and whenever it is
unavailable the registry is left as it was. -/
theorem inheritProxyTemplate_registers (x : Externals) (w : World) (p : Nat) (c : jclass)
    (n : String) :
    (inheritProxyTemplate x w p c n).2 = w.templates.length ∧
    w.templates[(inheritProxyTemplate x w p c n).2]? = none ∧
    (inheritProxyTemplate x w p c n).1.templates =
      w.templates ++ [{ callback := InvocationCallback.proxyConstructor, data := c,
                        internalFieldCount := kInternalFieldCount, className := n,
                        parent := some p }] ∧
    (inheritProxyTemplate x w p c n).1.templates[(inheritProxyTemplate x w p c n).2]? =
      some { callback := InvocationCallback.proxyConstructor, data := c,
             internalFieldCount := kInternalFieldCount, className := n, parent := some p } ∧
    (∀ c2, c2 ≠ c →
      GET_PROXY_INFO (inheritProxyTemplate x w p c n).1 c2 = GET_PROXY_INFO w c2) ∧
    (w.env = true →
      GET_PROXY_INFO (inheritProxyTemplate x w p c n).1 c =
        some { v8ProxyTemplate := (inheritProxyTemplate x w p c n).2,
               javaProxyCreator := x.krollProxyCreateMethod }) ∧
    (w.env = false → (inheritProxyTemplate x w p c n).1.factories = w.factories) := by
  cases henv : w.env
  · simp [inheritProxyTemplate, registerProxyPair, henv, LOG_JNIENV_ERROR, World.emit,
      GET_PROXY_INFO]
  · simp only [inheritProxyTemplate, registerProxyPair, henv, GET_PROXY_INFO]
    simp
    refine ⟨?_, ?_⟩
    · intro c2 hne
      exact mapFind_mapAssign_other _ c c2 _ hne
    · exact mapFind_mapAssign_same _ c _

/-- C9, amended, at a concrete input: class 8 derived in the world that holds class 7. -/
theorem inheritProxyTemplate_registers_witness :
    (inheritProxyTemplate demoExternals buttonWorld 0 8 "Label").2 = 1 ∧
    (buttonWorld.env = true →
      GET_PROXY_INFO (inheritProxyTemplate demoExternals buttonWorld 0 8 "Label").1 8 =
        some { v8ProxyTemplate := (inheritProxyTemplate demoExternals buttonWorld 0 8 "Label").2,
               javaProxyCreator := demoExternals.krollProxyCreateMethod }) :=
  ⟨by decide,
   (inheritProxyTemplate_registers demoExternals buttonWorld 0 8 "Label").2.2.2.2.2.1⟩

/-! ## Frame lemmas -/

theorem added_of_trace (w w2 : World) (es : List Event) (h : w2.trace = w.trace ++ es) :
    added w w2 = es := by
  simp [added, h]

theorem utf8ByteSize_pos_iff (s : String) : s.utf8ByteSize > 0 ↔ s ≠ "" := by
  obtain ⟨cs⟩ := s
  cases cs with
  | nil => simp [String.utf8ByteSize, String.utf8ByteSize.go]
  | cons c cs =>
    have hc := Char.utf8Size_pos c
    have hne : (String.mk (c :: cs)) ≠ "" := by
      intro h
      have h2 := congrArg String.data h
      simp at h2
    simp only [String.utf8ByteSize, String.utf8ByteSize.go, gt_iff_lt, ne_eq, hne,
      not_false_eq_true, iff_true]
    omega

theorem cString_eq_self (s : String) (h : Char.ofNat 0 ∉ s.data) : cString s = s := by
  obtain ⟨cs⟩ := s
  simp only [cString]
  congr 1
  rw [List.takeWhile_eq_self_iff]
  intro ch hch
  have hne : ch ≠ Char.ofNat 0 := fun he => h (he ▸ hch)
  simpa using hne

theorem Wrap_frame (w : World) (n : JavaObject) (h : Nat) :
    (Wrap w n h).env = w.env ∧ (Wrap w n h).factories = w.factories ∧
    (Wrap w n h).templates = w.templates ∧ (Wrap w n h).persistents = w.persistents ∧
    (Wrap w n h).longField = w.longField ∧ (Wrap w n h).trace = w.trace ∧
    (Wrap w n h).objects.length = w.objects.length := by
  unfold Wrap
  split <;> simp

theorem Wrap_wrapper (w : World) (n : JavaObject) (h : Nat) (hlive : h < w.objects.length) :
    ((Wrap w n h).objects[h]?).map V8Object.wrapper = some (some n) := by
  unfold Wrap
  have hs : w.objects[h]? = some w.objects[h] := List.getElem?_eq_getElem hlive
  rw [hs]
  simp [List.getElem?_set, hlive]

theorem unwrapJavaProxy_eq_some (args : Arguments) (m : Nat) :
    unwrapJavaProxy args = some m ↔ args.argv = [Value.external (some m)] := by
  unfold unwrapJavaProxy
  rcases hv : args.argv with _ | ⟨a, _ | ⟨b, rest⟩⟩
  · simp
  · cases a <;> simp [Value.IsExternal, Value.Unwrap]
  · simp

theorem unwrapJavaProxy_eq_none (args : Arguments) :
    unwrapJavaProxy args = none ↔ ¬ ∃ m, args.argv = [Value.external (some m)] := by
  constructor
  · rintro h ⟨m, hm⟩
    rw [(unwrapJavaProxy_eq_some args m).2 hm] at h
    cases h
  · intro h
    cases hu : unwrapJavaProxy args with
    | none => rfl
    | some m => exact absurd ⟨m, (unwrapJavaProxy_eq_some args m).1 hu⟩ h

theorem createJavaProxy_unregistered (x : Externals) (w : World) (c : jclass) (v : Nat)
    (args : Arguments) (h : GET_PROXY_INFO w c = none) :
    createJavaProxy x w c v args =
      (w.emit [Event.enterCreateJavaProxy c v args.argv,
               Event.logClassName "ProxyFactory: failed to find class for %s" c,
               Event.loge TAG "No proxy info found for class."], none) := by
  simp only [GET_PROXY_INFO] at h
  simp [createJavaProxy, GET_PROXY_INFO, World.emit, h]

theorem createJavaProxy_dead (x : Externals) (w : World) (c : jclass) (v : Nat)
    (args : Arguments) (info : ProxyInfo) (h : GET_PROXY_INFO w c = some info)
    (henv : w.env = false) :
    createJavaProxy x w c v args =
      (w.emit [Event.enterCreateJavaProxy c v args.argv,
               Event.loge TAG "Unable to find class while creating Java proxy."], none) := by
  simp only [GET_PROXY_INFO] at h
  simp [createJavaProxy, GET_PROXY_INFO, World.emit, h, henv, LOG_JNIENV_ERROR]

theorem createJavaProxy_alive (x : Externals) (w : World) (c : jclass) (v : Nat)
    (args : Arguments) (info : ProxyInfo) (h : GET_PROXY_INFO w c = some info)
    (henv : w.env = true) :
    createJavaProxy x w c v args =
      (({ w with persistents := w.persistents ++ [v] } : World).emit
          [Event.enterCreateJavaProxy c v args.argv,
           Event.callStaticObjectMethod info.javaProxyCreator c args.argv w.persistents.length
             (NewStringUTF (if (x.resourceNameUtf8 args.callee).utf8ByteSize > 0
                then x.resourceNameUtf8 args.callee else "app://app.js")),
           Event.deleteLocalRefArgs args.argv],
        x.callStaticObjectMethod info.javaProxyCreator c args.argv w.persistents.length
          (NewStringUTF (if (x.resourceNameUtf8 args.callee).utf8ByteSize > 0
             then x.resourceNameUtf8 args.callee else "app://app.js"))) := by
  simp only [GET_PROXY_INFO] at h
  simp [createJavaProxy, GET_PROXY_INFO, World.emit, h, henv]

/-- Whatever its outcome, `createJavaProxy` touches only the durable handles and the
trace, and the trace grows by one entry mark followed by calls that are neither entry
marks, nor binding queries, nor instantiations. -/
theorem createJavaProxy_frame (x : Externals) (w : World) (c : jclass) (v : Nat)
    (args : Arguments) :
    (createJavaProxy x w c v args).1.env = w.env ∧
    (createJavaProxy x w c v args).1.factories = w.factories ∧
    (createJavaProxy x w c v args).1.templates = w.templates ∧
    (createJavaProxy x w c v args).1.objects = w.objects ∧
    (createJavaProxy x w c v args).1.longField = w.longField ∧
    ∃ es, (createJavaProxy x w c v args).1.trace =
        w.trace ++ Event.enterCreateJavaProxy c v args.argv :: es ∧
      ∀ e ∈ es, e.isEnterCreateJavaProxy = false ∧ e.isGetBinding = false ∧
        e.isNewInstance = false := by
  cases hreg : GET_PROXY_INFO w c with
  | none =>
    rw [createJavaProxy_unregistered x w c v args hreg]
    refine ⟨rfl, rfl, rfl, rfl, rfl, _, rfl, ?_⟩
    simp [Event.isEnterCreateJavaProxy, Event.isGetBinding, Event.isNewInstance]
  | some info =>
    cases henv : w.env with
    | false =>
      rw [createJavaProxy_dead x w c v args info hreg henv]
      refine ⟨by simp [World.emit, henv], rfl, rfl, rfl, rfl, _, rfl, ?_⟩
      simp [Event.isEnterCreateJavaProxy, Event.isGetBinding, Event.isNewInstance]
    | true =>
      rw [createJavaProxy_alive x w c v args info hreg henv]
      refine ⟨by simp [World.emit, henv], rfl, rfl, rfl, rfl, _, rfl, ?_⟩
      simp [Event.isEnterCreateJavaProxy, Event.isGetBinding, Event.isNewInstance]

theorem proxyConstructor_linking (x : Externals) (w : World) (args : Arguments) (m : Nat)
    (h : args.argv = [Value.external (some m)]) :
    proxyConstructor x w args = (Wrap w { javaObject_ := some m } args.holder, args.holder) := by
  have hu := (unwrapJavaProxy_eq_some args m).2 h
  simp [proxyConstructor, hu]

theorem proxyConstructor_creating (x : Externals) (w : World) (args : Arguments)
    (h : unwrapJavaProxy args = none) :
    proxyConstructor x w args =
      (if (createJavaProxy x w args.data args.holder args).1.env = true then
          (Wrap (createJavaProxy x w args.data args.holder args).1
            { javaObject_ := (createJavaProxy x w args.data args.holder args).2 }
            args.holder).emit
            [Event.deleteLocalRef (createJavaProxy x w args.data args.holder args).2]
        else
          Wrap (createJavaProxy x w args.data args.holder args).1
            { javaObject_ := (createJavaProxy x w args.data args.holder args).2 }
            args.holder,
       args.holder) := by
  simp [proxyConstructor, h, (Wrap_frame _ _ _).1]

theorem proxyConstructor_creating_wrapper (x : Externals) (w : World) (args : Arguments)
    (hu : unwrapJavaProxy args = none) (hlive : args.holder < w.objects.length) :
    ((proxyConstructor x w args).1.objects[args.holder]?).map V8Object.wrapper =
      some (some { javaObject_ := (createJavaProxy x w args.data args.holder args).2 }) := by
  have hc := proxyConstructor_creating x w args hu
  have hobj := (createJavaProxy_frame x w args.data args.holder args).2.2.2.1
  have hlive2 : args.holder <
      (createJavaProxy x w args.data args.holder args).1.objects.length := by
    rw [hobj]; exact hlive
  have hw := Wrap_wrapper (createJavaProxy x w args.data args.holder args).1
    { javaObject_ := (createJavaProxy x w args.data args.holder args).2 } args.holder hlive2
  rw [hc]
  split
  · simpa [World.emit] using hw
  · exact hw

/-! ## The constructor dispatcher -/

/-- C2, as the claim states it, fails: the argument list is exactly one value tagged as
an external handle, the handle decodes to the null reference, `unwrapJavaProxy` answers
`NULL` and the dispatcher enters `createJavaProxy`. -/
theorem proxyConstructor_null_external :
    newButtonNull.argv.length = 1 ∧
    (newButtonNull.argv.getD 0 Value.undefined).IsExternal = true ∧
    unwrapJavaProxy newButtonNull = none ∧
    (added buttonReceiverWorld
        (proxyConstructor demoExternals buttonReceiverWorld newButtonNull).1).filter
      Event.isEnterCreateJavaProxy = [Event.enterCreateJavaProxy 7 0 [Value.external none]] := by
  decide

/-- C2, amended: for every constructor invocation, if the argument list is exactly one
external handle that decodes to a non-null managed reference, the dispatcher stores that
reference in the wrapper of the receiver and does nothing else, so `createJavaProxy` is
not entered; for every other argument list (none, two or more, one that is not external,
or one external handle that decodes to the null reference) `unwrapJavaProxy` answers
`NULL` and `createJavaProxy` is entered exactly once, with the bound class, the receiver
and the full argument list, and its result is what the wrapper of the receiver holds.
In both branches the value returned is the receiver. -/
theorem proxyConstructor_branches (x : Externals) (w : World) (args : Arguments) :
    (proxyConstructor x w args).2 = args.holder ∧
    (∀ m, args.argv = [Value.external (some m)] →
      unwrapJavaProxy args = some m ∧
      (proxyConstructor x w args).1 = Wrap w { javaObject_ := some m } args.holder ∧
      added w (proxyConstructor x w args).1 = [] ∧
      (args.holder < w.objects.length →
        ((proxyConstructor x w args).1.objects[args.holder]?).map V8Object.wrapper =
          some (some { javaObject_ := some m }))) ∧
    ((¬ ∃ m, args.argv = [Value.external (some m)]) →
      unwrapJavaProxy args = none ∧
      (added w (proxyConstructor x w args).1).filter Event.isEnterCreateJavaProxy =
        [Event.enterCreateJavaProxy args.data args.holder args.argv] ∧
      (args.holder < w.objects.length →
        ((proxyConstructor x w args).1.objects[args.holder]?).map V8Object.wrapper =
          some (some { javaObject_ := (createJavaProxy x w args.data args.holder args).2 }))) := by
  refine ⟨by simp [proxyConstructor], ?_, ?_⟩
  · intro m hm
    have hl := proxyConstructor_linking x w args m hm
    refine ⟨(unwrapJavaProxy_eq_some args m).2 hm, by rw [hl], ?_, ?_⟩
    · rw [hl]
      exact added_of_trace _ _ [] (by simp [(Wrap_frame _ _ _).2.2.2.2.2.1])
    · intro hlive
      rw [hl]
      exact Wrap_wrapper w _ _ hlive
  · intro hno
    have hu := (unwrapJavaProxy_eq_none args).2 hno
    have hc := proxyConstructor_creating x w args hu
    obtain ⟨_, _, _, _, _, es, htr, hes⟩ :=
      createJavaProxy_frame x w args.data args.holder args
    refine ⟨hu, ?_, ?_⟩
    · have hfil : es.filter Event.isEnterCreateJavaProxy = [] := by
        rw [List.filter_eq_nil_iff]
        intro e he
        simp [(hes e he).1]
      rw [hc]
      split
      · rw [added_of_trace w _
          (Event.enterCreateJavaProxy args.data args.holder args.argv :: es ++
            [Event.deleteLocalRef (createJavaProxy x w args.data args.holder args).2])
          (by simp [World.emit, (Wrap_frame _ _ _).2.2.2.2.2.1, htr])]
        simp [List.filter_cons, Event.isEnterCreateJavaProxy, hfil]
      · rw [added_of_trace w _
          (Event.enterCreateJavaProxy args.data args.holder args.argv :: es)
          (by simp [(Wrap_frame _ _ _).2.2.2.2.2.1, htr])]
        simp [List.filter_cons, Event.isEnterCreateJavaProxy, hfil]
    · exact proxyConstructor_creating_wrapper x w args hu

/-- C2, amended, at a concrete input: the constructor of class 7 invoked on the receiver 0
with the external handle of the managed object 5. -/
theorem proxyConstructor_branches_witness :
    newButtonLinked.argv = [Value.external (some 5)] ∧
    unwrapJavaProxy newButtonLinked = some 5 ∧
    (proxyConstructor demoExternals buttonReceiverWorld newButtonLinked).1 =
      Wrap buttonReceiverWorld { javaObject_ := some 5 } newButtonLinked.holder ∧
    added buttonReceiverWorld
      (proxyConstructor demoExternals buttonReceiverWorld newButtonLinked).1 = [] ∧
    (newButtonLinked.holder < buttonReceiverWorld.objects.length →
      ((proxyConstructor demoExternals buttonReceiverWorld newButtonLinked).1.objects[
          newButtonLinked.holder]?).map V8Object.wrapper =
        some (some { javaObject_ := some 5 })) :=
  ⟨rfl, (proxyConstructor_branches demoExternals buttonReceiverWorld newButtonLinked).2.1 5 rfl⟩

/-- Whenever `createJavaProxy` answers `NULL` in the creating branch, the receiver is
returned with a wrapper that holds the null reference. -/
theorem proxyConstructor_wraps_null (x : Externals) (w : World) (args : Arguments)
    (hu : unwrapJavaProxy args = none)
    (hfail : (createJavaProxy x w args.data args.holder args).2 = none)
    (hlive : args.holder < w.objects.length) :
    (proxyConstructor x w args).2 = args.holder ∧
    ((proxyConstructor x w args).1.objects[args.holder]?).map V8Object.wrapper =
      some (some { javaObject_ := none }) := by
  have h3 := proxyConstructor_creating_wrapper x w args hu hlive
  rw [hfail] at h3
  exact ⟨by simp [proxyConstructor], h3⟩

/-- C3, the code at the failing input: class 9 is registered, the environment is
available and the managed creator method answers null; the constructor invoked with no
argument gets `NULL` from `createJavaProxy` and still returns the receiver 0, with a
wrapper attached that holds no managed reference. -/
theorem proxyConstructor_half_linked :
    (createJavaProxy demoExternals failingReceiverWorld newBroken.data newBroken.holder
      newBroken).2 = none ∧
    (proxyConstructor demoExternals failingReceiverWorld newBroken).2 = 0 ∧
    ((proxyConstructor demoExternals failingReceiverWorld newBroken).1.objects[0]?).map
      V8Object.wrapper = some (some { javaObject_ := none }) := by
  decide

/-! ## The native-object factory -/

/-- C8, as the claim states it, fails: the creator method is handed the C string that
`NewStringUTF` reads at `url`, which ends at the first NUL.  The resource name of the
function 2 is not empty and holds a NUL after its first character: the source location
passed is "a", not that resource name.  The resource name of the function 3 is not empty
and starts with a NUL: the source location passed is the empty string, neither the
resource name nor "app://app.js". -/
theorem createJavaProxy_source_url_nul :
    demoExternals.resourceNameUtf8 (newButtonFrom 2).callee ≠ "" ∧
    added buttonReceiverWorld
        (createJavaProxy demoExternals buttonReceiverWorld 7 0 (newButtonFrom 2)).1 =
      [Event.enterCreateJavaProxy 7 0 [],
       Event.callStaticObjectMethod 42 7 [] 0 "a",
       Event.deleteLocalRefArgs []] ∧
    "a" ≠ demoExternals.resourceNameUtf8 (newButtonFrom 2).callee ∧
    demoExternals.resourceNameUtf8 (newButtonFrom 3).callee ≠ "" ∧
    added buttonReceiverWorld
        (createJavaProxy demoExternals buttonReceiverWorld 7 0 (newButtonFrom 3)).1 =
      [Event.enterCreateJavaProxy 7 0 [],
       Event.callStaticObjectMethod 42 7 [] 0 "",
       Event.deleteLocalRefArgs []] := by
  decide

/-- C8, amended: a call of `createJavaProxy` that reaches the creator method (the class is
registered and the environment is available) makes exactly one call of that method, whose
answer is the result of the call; the source location it passes is "app://app.js" when
the resource name of the script origin of the callee converts to the empty string, and
otherwise that resource name read as a C string, that is its characters before the first
NUL, which is exactly the resource name whenever it holds no NUL. -/
theorem createJavaProxy_source_url (x : Externals) (w : World) (c : jclass) (v : Nat)
    (args : Arguments) (info : ProxyInfo) (hreg : GET_PROXY_INFO w c = some info)
    (henv : w.env = true) :
    added w (createJavaProxy x w c v args).1 =
      [Event.enterCreateJavaProxy c v args.argv,
       Event.callStaticObjectMethod info.javaProxyCreator c args.argv w.persistents.length
         (if x.resourceNameUtf8 args.callee = "" then "app://app.js"
          else cString (x.resourceNameUtf8 args.callee)),
       Event.deleteLocalRefArgs args.argv] ∧
    (createJavaProxy x w c v args).2 =
      x.callStaticObjectMethod info.javaProxyCreator c args.argv w.persistents.length
        (if x.resourceNameUtf8 args.callee = "" then "app://app.js"
         else cString (x.resourceNameUtf8 args.callee)) ∧
    (Char.ofNat 0 ∉ (x.resourceNameUtf8 args.callee).data →
      cString (x.resourceNameUtf8 args.callee) = x.resourceNameUtf8 args.callee) := by
  have hurl : NewStringUTF (if (x.resourceNameUtf8 args.callee).utf8ByteSize > 0
        then x.resourceNameUtf8 args.callee else "app://app.js") =
      (if x.resourceNameUtf8 args.callee = "" then "app://app.js"
       else cString (x.resourceNameUtf8 args.callee)) := by
    by_cases he : x.resourceNameUtf8 args.callee = ""
    · have h0 : ¬ (x.resourceNameUtf8 args.callee).utf8ByteSize > 0 := by
        rw [utf8ByteSize_pos_iff]; simp [he]
      rw [if_neg h0, if_pos he]
      decide
    · rw [if_pos ((utf8ByteSize_pos_iff _).2 he), if_neg he]
      rfl
  rw [createJavaProxy_alive x w c v args info hreg henv, hurl]
  exact ⟨added_of_trace _ _ _ rfl, rfl, cString_eq_self _⟩

/-- C8, amended, at a concrete input: the constructor of class 7 invoked with no argument
by the function 1, which comes from the script "app://ui/window.js". -/
theorem createJavaProxy_source_url_witness :
    GET_PROXY_INFO buttonReceiverWorld 7 = some { v8ProxyTemplate := 0, javaProxyCreator := 42 } ∧
    buttonReceiverWorld.env = true ∧
    demoExternals.resourceNameUtf8 (newButtonFrom 1).callee = "app://ui/window.js" ∧
    cString "app://ui/window.js" = "app://ui/window.js" ∧
    added buttonReceiverWorld
        (createJavaProxy demoExternals buttonReceiverWorld 7 0 (newButtonFrom 1)).1 =
      [Event.enterCreateJavaProxy 7 0 (newButtonFrom 1).argv,
       Event.callStaticObjectMethod 42 7 (newButtonFrom 1).argv
         buttonReceiverWorld.persistents.length
         (if demoExternals.resourceNameUtf8 (newButtonFrom 1).callee = "" then "app://app.js"
          else cString (demoExternals.resourceNameUtf8 (newButtonFrom 1).callee)),
       Event.deleteLocalRefArgs (newButtonFrom 1).argv] :=
  ⟨by decide, by decide, by decide, by decide,
   (createJavaProxy_source_url demoExternals buttonReceiverWorld 7 0 (newButtonFrom 1)
     { v8ProxyTemplate := 0, javaProxyCreator := 42 } (by decide) (by decide)).1⟩

/-- The two early failures of `createJavaProxy` create no durable handle, and a call that
reaches the creator method has created one before it, whatever the method answers. -/
theorem createJavaProxy_persistents (x : Externals) (w : World) (c : jclass) (v : Nat)
    (args : Arguments) :
    (GET_PROXY_INFO w c = none →
      (createJavaProxy x w c v args).2 = none ∧
      (createJavaProxy x w c v args).1.persistents = w.persistents) ∧
    (w.env = false →
      (createJavaProxy x w c v args).2 = none ∧
      (createJavaProxy x w c v args).1.persistents = w.persistents) ∧
    (∀ info, GET_PROXY_INFO w c = some info → w.env = true →
      (createJavaProxy x w c v args).1.persistents = w.persistents ++ [v]) := by
  refine ⟨?_, ?_, ?_⟩
  · intro h
    rw [createJavaProxy_unregistered x w c v args h]
    exact ⟨rfl, rfl⟩
  · intro henv
    cases hreg : GET_PROXY_INFO w c with
    | none =>
      rw [createJavaProxy_unregistered x w c v args hreg]
      exact ⟨rfl, rfl⟩
    | some info =>
      rw [createJavaProxy_dead x w c v args info hreg henv]
      exact ⟨rfl, rfl⟩
  · intro info hreg henv
    rw [createJavaProxy_alive x w c v args info hreg henv]
    rfl

/-- C10, the code at the failing input: class 9 is registered, the environment is
available and the managed creator method answers null; `createJavaProxy` returns `NULL`
and the durable handle it made for the receiver before the call is still there. -/
theorem createJavaProxy_leaves_handle :
    (createJavaProxy demoExternals failingReceiverWorld 9 0 newBroken).2 = none ∧
    failingReceiverWorld.persistents = [] ∧
    (createJavaProxy demoExternals failingReceiverWorld 9 0 newBroken).1.persistents = [0] := by
  decide

/-! ## The script-object factory -/

/-- The dispatcher adds to the trace no binding query and no instantiation. -/
theorem proxyConstructor_trace (x : Externals) (w : World) (args : Arguments) :
    ∃ es, (proxyConstructor x w args).1.trace = w.trace ++ es ∧
      ∀ e ∈ es, e.isGetBinding = false ∧ e.isNewInstance = false := by
  cases hu : unwrapJavaProxy args with
  | some m =>
    rw [proxyConstructor_linking x w args m ((unwrapJavaProxy_eq_some args m).1 hu)]
    exact ⟨[], by simp [(Wrap_frame _ _ _).2.2.2.2.2.1], by simp⟩
  | none =>
    obtain ⟨_, _, _, _, _, es, htr, hes⟩ :=
      createJavaProxy_frame x w args.data args.holder args
    rw [proxyConstructor_creating x w args hu]
    split
    · refine ⟨Event.enterCreateJavaProxy args.data args.holder args.argv :: es ++
        [Event.deleteLocalRef (createJavaProxy x w args.data args.holder args).2], ?_, ?_⟩
      · simp [World.emit, (Wrap_frame _ _ _).2.2.2.2.2.1, htr]
      · intro e he
        simp only [List.cons_append, List.mem_cons, List.mem_append, List.not_mem_nil,
          or_false] at he
        rcases he with he | he | he
        · subst he; exact ⟨rfl, rfl⟩
        · exact (hes e he).2
        · subst he; exact ⟨rfl, rfl⟩
    · refine ⟨Event.enterCreateJavaProxy args.data args.holder args.argv :: es, ?_, ?_⟩
      · simp [(Wrap_frame _ _ _).2.2.2.2.2.1, htr]
      · intro e he
        simp only [List.mem_cons] at he
        rcases he with he | he
        · subst he; exact ⟨rfl, rfl⟩
        · exact (hes e he).2

/-- The instantiation of the function of a template adds to the trace its own record,
then no binding query and no further instantiation. -/
theorem NewInstance_trace (x : Externals) (w : World) (t : Nat) (argv : List Value) :
    ∃ es, (NewInstance x w t argv).1.trace = w.trace ++ Event.newInstance t argv :: es ∧
      ∀ e ∈ es, e.isGetBinding = false ∧ e.isNewInstance = false := by
  unfold NewInstance
  simp only [World.emit]
  split
  · exact ⟨[], rfl, by simp⟩
  · rename_i tpl _
    split
    · obtain ⟨es, htr, hes⟩ := proxyConstructor_trace x
        { w with
          objects := w.objects ++ [{ creator := t, internalFieldCount := tpl.internalFieldCount,
                                     wrapper := none }],
          trace := w.trace ++ [Event.newInstance t argv] }
        { holder := w.objects.length, data := tpl.data, argv := argv, callee := t }
      refine ⟨es, ?_, hes⟩
      simp only at htr ⊢
      rw [htr]
      simp
    · exact ⟨[], rfl, by simp⟩

theorem instantiateAndLink_trace (x : Externals) (w : World) (t : Nat) (M : jobject) :
    ∃ es, (instantiateAndLink x w (some (Value.function t)) M).1.trace =
        w.trace ++ Event.newInstance t [Value.external M] :: es ∧
      ∀ e ∈ es, e.isGetBinding = false ∧ e.isNewInstance = false := by
  obtain ⟨es, htr, hes⟩ := NewInstance_trace x w t [Value.external M]
  refine ⟨es, ?_, hes⟩
  unfold instantiateAndLink
  simp only
  rcases hn : NewInstance x w t [Value.external M] with ⟨w1, _ | v⟩
  · rw [hn] at htr
    simpa using htr
  · rw [hn] at htr
    cases M <;> simpa using htr

/-- C4: for every class that has a `ProxyInfo` in the registry and every managed object,
whatever the fallback binding table holds, `createV8Proxy` makes no query of the binding
table, and the only constructor it instantiates is the function of the registered
template, on the external handle of the managed object: once when the environment is
available, and not at all when the call stops at the environment guard. -/
theorem createV8Proxy_registry_precedence (x : Externals) (w : World) (c : jclass)
    (M : jobject) (info : ProxyInfo) (hreg : GET_PROXY_INFO w c = some info) :
    (∀ e ∈ added w (createV8Proxy x w c M).1, e.isGetBinding = false) ∧
    (w.env = true →
      (added w (createV8Proxy x w c M).1).filter Event.isNewInstance =
        [Event.newInstance info.v8ProxyTemplate [Value.external M]]) ∧
    (w.env = false →
      (added w (createV8Proxy x w c M).1).filter Event.isNewInstance = []) := by
  cases henv : w.env with
  | false =>
    have h : createV8Proxy x w c M =
        (LOG_JNIENV_ERROR w "while creating Java proxy.", .ok none) := by
      simp [createV8Proxy, henv]
    rw [h, added_of_trace w _ [Event.loge TAG ("Unable to find class " ++
      "while creating Java proxy.")] rfl]
    simp [Event.isGetBinding, Event.isNewInstance]
  | true =>
    have h : createV8Proxy x w c M =
        instantiateAndLink x w (some (Value.function info.v8ProxyTemplate)) M := by
      simp [createV8Proxy, henv, hreg]
    obtain ⟨es, htr, hes⟩ := instantiateAndLink_trace x w info.v8ProxyTemplate M
    rw [h, added_of_trace w _ _ htr]
    have hfil : es.filter Event.isNewInstance = [] := by
      rw [List.filter_eq_nil_iff]
      intro e he
      simp [(hes e he).2]
    refine ⟨?_, ?_, by simp⟩
    · intro e he
      simp only [List.mem_cons] at he
      rcases he with he | he
      · subst he; rfl
      · exact (hes e he).1
    · intro _
      simp [List.filter_cons, Event.isNewInstance, hfil]

/-- C4 at a concrete input: class 7 is registered and the managed object is 5. -/
theorem createV8Proxy_registry_precedence_witness :
    GET_PROXY_INFO buttonWorld 7 = some { v8ProxyTemplate := 0, javaProxyCreator := 42 } ∧
    (∀ e ∈ added buttonWorld (createV8Proxy demoExternals buttonWorld 7 (some 5)).1,
      e.isGetBinding = false) ∧
    (buttonWorld.env = true →
      (added buttonWorld (createV8Proxy demoExternals buttonWorld 7 (some 5)).1).filter
          Event.isNewInstance =
        [Event.newInstance 0 [Value.external (some 5)]]) ∧
    (buttonWorld.env = false →
      (added buttonWorld (createV8Proxy demoExternals buttonWorld 7 (some 5)).1).filter
          Event.isNewInstance = []) :=
  ⟨by decide,
   createV8Proxy_registry_precedence demoExternals buttonWorld 7 (some 5)
     { v8ProxyTemplate := 0, javaProxyCreator := 42 } (by decide)⟩

/-- C5: for every class with no registry entry for which the binding lookup answers
nothing, and every managed object, `createV8Proxy` returns the empty handle without a
fault; it instantiates no constructor, does not enter `createJavaProxy`, creates no
durable handle and does not write the field of the managed object; the scripting heap and
the registry are as they were, and when the environment is available the diagnostic names
the class. -/
theorem createV8Proxy_missing_class (x : Externals) (w : World) (c : jclass) (M : jobject)
    (hreg : GET_PROXY_INFO w c = none) (hbind : x.getBinding (x.getClassName c) = none) :
    (createV8Proxy x w c M).2 = .ok none ∧
    (createV8Proxy x w c M).1.objects = w.objects ∧
    (createV8Proxy x w c M).1.persistents = w.persistents ∧
    (createV8Proxy x w c M).1.longField = w.longField ∧
    (createV8Proxy x w c M).1.factories = w.factories ∧
    (createV8Proxy x w c M).1.templates = w.templates ∧
    (∀ e ∈ added w (createV8Proxy x w c M).1,
      e.isNewInstance = false ∧ e.isEnterCreateJavaProxy = false) ∧
    (w.env = true →
      Event.loge TAG ("Failed to find class for " ++ x.getClassName c) ∈
        added w (createV8Proxy x w c M).1) := by
  cases henv : w.env with
  | false =>
    have h : createV8Proxy x w c M =
        (LOG_JNIENV_ERROR w "while creating Java proxy.", .ok none) := by
      simp [createV8Proxy, henv]
    rw [h, added_of_trace w _ [Event.loge TAG ("Unable to find class " ++
      "while creating Java proxy.")] rfl]
    simp [LOG_JNIENV_ERROR, World.emit, Event.isNewInstance, Event.isEnterCreateJavaProxy]
  | true =>
    have h : createV8Proxy x w c M =
        (w.emit [Event.getBinding (x.getClassName c),
                 Event.loge TAG ("Failed to find class for " ++ x.getClassName c),
                 Event.loge TAG ("Unable to find class " ++ "while creating V8 Proxy.")],
         .ok none) := by
      simp [createV8Proxy, henv, hreg, hbind, LOG_JNIENV_ERROR, World.emit]
    rw [h, added_of_trace w _ _ rfl]
    simp [World.emit, Event.isNewInstance, Event.isEnterCreateJavaProxy]

/-- C5 at a concrete input: class 7 in the world where nothing is registered, the binding
table having no entry for its name. -/
theorem createV8Proxy_missing_class_witness :
    GET_PROXY_INFO emptyWorld 7 = none ∧
    demoExternals.getBinding (demoExternals.getClassName 7) = none ∧
    (createV8Proxy demoExternals emptyWorld 7 (some 5)).2 = .ok none ∧
    (createV8Proxy demoExternals emptyWorld 7 (some 5)).1.persistents = emptyWorld.persistents ∧
    (createV8Proxy demoExternals emptyWorld 7 (some 5)).1.longField = emptyWorld.longField :=
  ⟨by decide, by decide,
   (createV8Proxy_missing_class demoExternals emptyWorld 7 (some 5) (by decide) (by decide)).1,
   (createV8Proxy_missing_class demoExternals emptyWorld 7 (some 5) (by decide) (by decide)).2.2.1,
   (createV8Proxy_missing_class demoExternals emptyWorld 7 (some 5) (by decide)
     (by decide)).2.2.2.1⟩

/-- With the environment available, `inheritProxyTemplate` leaves its class registered
through a template of the constructor dispatcher. -/
theorem inheritProxyTemplate_RegisteredByInherit (x : Externals) (w : World) (p : Nat)
    (c : jclass) (n : String) (henv : w.env = true) :
    RegisteredByInherit (inheritProxyTemplate x w p c n).1 c := by
  refine ⟨{ v8ProxyTemplate := w.templates.length,
            javaProxyCreator := x.krollProxyCreateMethod },
          { callback := InvocationCallback.proxyConstructor, data := c,
            internalFieldCount := kInternalFieldCount, className := n, parent := some p },
          ?_, ?_, rfl, rfl⟩
  · simp only [inheritProxyTemplate, registerProxyPair, henv, GET_PROXY_INFO]
    simp
    exact mapFind_mapAssign_same _ c _
  · simp [inheritProxyTemplate, registerProxyPair, henv]

/-- C1: for every managed object `m` and every class `c` registered through
`inheritProxyTemplate`, with the environment available, `createV8Proxy` returns a new
scripting object `S` such that the wrapper the constructor dispatcher attached to `S`
holds exactly `m`, and the value written to the cross-runtime field of `m` is a durable
handle whose cell holds `S`. -/
theorem createV8Proxy_round_trip (x : Externals) (w : World) (c : jclass) (m : Nat)
    (henv : w.env = true) (hreg : RegisteredByInherit w c) :
    ∃ w2 S h, createV8Proxy x w c (some m) = (w2, .ok (some S)) ∧
      S = w.objects.length ∧
      (w2.objects[S]?).map V8Object.wrapper = some (some { javaObject_ := some m }) ∧
      w2.longField.lookup m = some h ∧
      w2.persistents[h]? = some S := by
  obtain ⟨info, t, hinfo, ht, hcb, _⟩ := hreg
  have hlink := proxyConstructor_linking x
    { w with
      objects := w.objects ++ [{ creator := info.v8ProxyTemplate,
                                 internalFieldCount := t.internalFieldCount, wrapper := none }],
      trace := w.trace ++ [Event.newInstance info.v8ProxyTemplate [Value.external (some m)]] }
    { holder := w.objects.length, data := t.data, argv := [Value.external (some m)],
      callee := info.v8ProxyTemplate } m rfl
  have hnew : NewInstance x w info.v8ProxyTemplate [Value.external (some m)] =
      (Wrap { w with
          objects := w.objects ++ [{ creator := info.v8ProxyTemplate,
                                     internalFieldCount := t.internalFieldCount,
                                     wrapper := none }],
          trace := w.trace ++ [Event.newInstance info.v8ProxyTemplate
            [Value.external (some m)]] }
        { javaObject_ := some m } w.objects.length, .ok w.objects.length) := by
    simp only [NewInstance, World.emit, ht, hcb, hlink]
  have hcreate : createV8Proxy x w c (some m) =
      instantiateAndLink x w (some (Value.function info.v8ProxyTemplate)) (some m) := by
    simp [createV8Proxy, henv, hinfo]
  rw [hcreate]
  simp only [instantiateAndLink, hnew]
  refine ⟨_, w.objects.length, w.persistents.length, rfl, rfl, ?_, ?_, ?_⟩
  · exact Wrap_wrapper _ _ _ (by simp)
  · simp [(Wrap_frame _ _ _).2.2.2.1]
  · simp [(Wrap_frame _ _ _).2.2.2.1]

/-- C1 at a concrete input: class 7, registered through `inheritProxyTemplate`, and the
managed object 5. -/
theorem createV8Proxy_round_trip_witness :
    buttonWorld.env = true ∧ RegisteredByInherit buttonWorld 7 ∧
    ∃ w2 S h, createV8Proxy demoExternals buttonWorld 7 (some 5) = (w2, .ok (some S)) ∧
      S = buttonWorld.objects.length ∧
      (w2.objects[S]?).map V8Object.wrapper = some (some { javaObject_ := some 5 }) ∧
      w2.longField.lookup 5 = some h ∧
      w2.persistents[h]? = some S :=
  ⟨by decide,
   inheritProxyTemplate_RegisteredByInherit demoExternals emptyWorld 0 7 "Button" (by decide),
   createV8Proxy_round_trip demoExternals buttonWorld 7 5 (by decide)
     (inheritProxyTemplate_RegisteredByInherit demoExternals emptyWorld 0 7 "Button"
       (by decide))⟩

/-- Whenever the class is not registered and the binding table answers an exports object
with no property, `createV8Proxy` calls `NewInstance` on the empty `creator` handle. -/
theorem createV8Proxy_empty_exports (x : Externals) (w : World) (c : jclass) (M : jobject)
    (henv : w.env = true) (hreg : GET_PROXY_INFO w c = none)
    (hbind : x.getBinding (x.getClassName c) = some []) :
    createV8Proxy x w c M =
      (w.emit [Event.getBinding (x.getClassName c)], .error Fault.emptyCreator) := by
  simp [createV8Proxy, henv, hreg, hbind, instantiateAndLink]

/-- C6, the code at the failing input: class 8 has no registry entry, the environment is
available and the binding table answers an exports object with no property;
`createV8Proxy` leaves `creator` empty and then calls `NewInstance` on it, instead of
returning the empty handle. -/
theorem createV8Proxy_instantiates_empty_creator :
    GET_PROXY_INFO emptyWorld 8 = none ∧
    demoExternals.getBinding (demoExternals.getClassName 8) = some [] ∧
    (createV8Proxy demoExternals emptyWorld 8 (some 5)).2 = .error Fault.emptyCreator ∧
    (createV8Proxy demoExternals emptyWorld 8 (some 5)).2 ≠ .ok none := by
  refine ⟨by decide, by decide, ?_, ?_⟩
  · rfl
  · intro h
    cases h

end ProxyFactory
